import Mathlib

/-!
Verification of the GDELT event ETL job (`etl_job.py`).

The Python program is shallowly embedded: pandas tables become `DataFrame`
(lists of rows of nullable cells), exceptions become the `PyResult` sum, and
the in-place mutation performed by the quality gate becomes explicit state
passing.  External collaborators (HTTP download, zip extraction, the
geopandas spatial join, the PostGIS append and the S3 sink) are injected as
parameters, matching the design's interface-only view of them.
-/

namespace Etl

/-- A pandas cell: `none` models NaN / null, `some s` a concrete value. -/
abbrev Cell := Option String

/-- A pandas DataFrame: named columns and rows of cells. -/
structure DataFrame where
  cols : List String
  rows : List (List Cell)
deriving Repr, DecidableEq

/-- Result of running a Python expression: a value, or a raised exception. -/
inductive PyResult (α : Type) where
  | ok (a : α)
  | exn (e : String)
deriving Repr, DecidableEq

/-- Split a character list at every character satisfying `p`, keeping empty
pieces — the semantics of Python's `str.split(sep)` for a one-character
separator (and, with `p` a whitespace test, the pieces of `str.split()`
before empties are discarded). -/
def splitBy (p : Char → Bool) : List Char → List (List Char)
  | [] => [[]]
  | ch :: rest =>
    match splitBy p rest with
    | [] => [[]]
    | cur :: parts => if p ch then [] :: cur :: parts else (ch :: cur) :: parts

/-- Python's `s.split(c)` for a single-character separator `c`. -/
def pySplit (c : Char) (s : String) : List String :=
  (splitBy (fun ch => ch = c) s.data).map String.mk

/-- `tok` is an initial segment of `s`. -/
def matchesAt : List Char → List Char → Bool
  | [], _ => true
  | _ :: _, [] => false
  | a :: as, b :: bs => a = b && matchesAt as bs

/-- `tok` occurs as a contiguous substring of `s`: Python's `tok in s`. -/
def hasSub (tok : List Char) : List Char → Bool
  | [] => matchesAt tok []
  | ch :: rest => matchesAt tok (ch :: rest) || hasSub tok rest

/-- Split one line of the payload at tabs; an empty field parses as NaN.
Models the per-line behaviour of `pd.read_csv(..., delimiter='\t')`. -/
def splitFields (line : String) : List Cell :=
  (pySplit '\t' line).map (fun f => if f = "" then none else some f)

/-- The non-blank lines of the payload (pandas skips blank lines). -/
def parsedLines (content : String) : List String :=
  (pySplit '\n' content).filter (fun l => l ≠ "")

/-- Pad a short row with NaN up to the expected width (pandas pads rows that
have fewer fields than the first row). -/
def padRow (n : Nat) (r : List Cell) : List Cell :=
  r ++ List.replicate (n - r.length) none

/-- `pd.read_csv(io.StringIO(content), delimiter='\t', header=None)`
(line 130): the first row fixes the column count; a row with more fields
raises `ParserError`, a shorter row is padded with NaN; an empty payload
raises `EmptyDataError`; columns are named by position. -/
def read_csv (content : String) : PyResult DataFrame :=
  match parsedLines content with
  | [] => .exn "EmptyDataError"
  | first :: rest =>
    let n := (splitFields first).length
    let fieldRows := (first :: rest).map splitFields
    if fieldRows.all (fun r => r.length ≤ n) then
      .ok ⟨(List.range n).map toString, fieldRows.map (padRow n)⟩
    else .exn "ParserError"

/-- The fixed positional selection of line 134. -/
def sel_positions : List Nat := [0, 1, 26, 27, 28, 52, 53, 56, 57, 59, 60]

/-- `df.iloc[:, idxs]`: select columns by position; an out-of-range
position raises `IndexError`. -/
def iloc_cols (df : DataFrame) (idxs : List Nat) : PyResult DataFrame :=
  if idxs.all (fun i => i < df.cols.length) then
    .ok ⟨idxs.map (fun i => df.cols.getD i ""),
         df.rows.map (fun r => idxs.map (fun i => r.getD i none))⟩
  else .exn "IndexError"

/-- The eleven column names assigned on lines 133 and 135. -/
def new_columns : List String :=
  ["GLOBALEVENTID", "SQLDATE", "EventCode", "EventBaseCode", "EventRootCode",
   "ActionGeo_FullName", "ActionGeo_CountryCode", "ActionGeo_Lat",
   "ActionGeo_Long", "DATEADDED", "SOURCEURL"]

/-- `df.columns = columns` (line 135): renaming raises unless the frame has
exactly as many columns as names. -/
def set_columns (df : DataFrame) : PyResult DataFrame :=
  if df.cols.length = new_columns.length then .ok ⟨new_columns, df.rows⟩
  else .exn "ValueError"

/-- `series.map(m).fillna('Unknown')` on one cell: a null cell or a value
absent from the mapping becomes the literal `"Unknown"`; a mapped value
becomes its label. -/
def map_fillna (m : String → Option String) (c : Cell) : Cell :=
  match c with
  | none => some "Unknown"
  | some v =>
    match m v with
    | none => some "Unknown"
    | some label => some label

/-- Rewrite position `i` of a row through `map_fillna`. -/
def applyAt (i : Nat) (m : String → Option String) (r : List Cell) : List Cell :=
  r.set i (map_fillna m (r.getD i none))

/-- `df[name] = df[name].map(m).fillna('Unknown')` (lines 138-141): reading a
missing column raises `KeyError`; otherwise every row is rewritten at that
column's position. -/
def mapColumn (m : String → Option String) (name : String) (df : DataFrame) :
    PyResult DataFrame :=
  match df.cols.findIdx? (fun c => c = name) with
  | none => .exn "KeyError"
  | some i => .ok ⟨df.cols, df.rows.map (applyAt i m)⟩

/-- Modelled from the spec: the four static lookup tables imported from
`utils.data_mappings` are not part of the analysed source.  Per the design
they are immutable injected mappings (event code to label, event base code
to label, event root code to label, FIPS country code to ISO2), so they are
carried as parameters. -/
structure Mappings where
  event_codes_map : String → Option String
  event_base_codes_map : String → Option String
  event_root_codes_map : String → Option String
  map_fips_to_iso2_map : String → Option String

/-- The four enrichment statements of lines 138-141, in source order. -/
def enrichSteps (M : Mappings) : List ((String → Option String) × String) :=
  [(M.event_codes_map, "EventCode"),
   (M.event_base_codes_map, "EventBaseCode"),
   (M.event_root_codes_map, "EventRootCode"),
   (M.map_fips_to_iso2_map, "ActionGeo_CountryCode")]

/-- Run the enrichment statements in order inside the `try` of
`transform_data`.  `fault = some k` models a runtime exception raised by the
k-th enrichment statement (counting from 0).  The `except` clause of line
144-146 executes `return df`, i.e. it returns the current binding of `df` —
the table with only the statements before the failing one applied. -/
def enrichList (fault : Option Nat) :
    Nat → List ((String → Option String) × String) → DataFrame →
    PyResult DataFrame
  | _, [], df => .ok df
  | i, (m, name) :: rest, df =>
    if fault = some i then .ok df
    else
      match mapColumn m name df with
      | .exn _ => .ok df
      | .ok df2 => enrichList fault (i + 1) rest df2

/-- `transform_data` (lines 119-146).  The whole body is a `try` whose
`except` clause runs `return df`: when `pd.read_csv` itself raised, `df` was
never bound and the handler raises `UnboundLocalError`, which propagates to
the caller; when a later statement raised, the handler returns whatever `df`
currently holds (the raw frame if selection or renaming failed, a partially
enriched frame if an enrichment statement failed). -/
def transform_data (M : Mappings) (fault : Option Nat) (content : String) :
    PyResult DataFrame :=
  match read_csv content with
  | .exn _ => .exn "UnboundLocalError"
  | .ok df0 =>
    match iloc_cols df0 sel_positions with
    | .exn _ => .ok df0
    | .ok df1 =>
      match set_columns df1 with
      | .exn _ => .ok df1
      | .ok df2 => enrichList fault 0 (enrichSteps M) df2

/-- The `GLOBALEVENTID` cell of a row, given the column's position. -/
def keyCell (i : Nat) (r : List Cell) : Cell := r.getD i none

/-- `series.duplicated().any()`: some value occurs more than once. -/
def hasDup (l : List Cell) : Bool := decide (¬ l.Nodup)

/-- `data_quality_checks` (lines 148-177), with the in-place `dropna` made
explicit by returning the table's final state alongside the boolean.  Wrong
column count fails the gate at once with the table untouched; rows with a
null `GLOBALEVENTID` are then dropped (a mutation the caller observes); a
duplicate among the surviving keys fails the gate without removing the
duplicates.  Accessing `df['GLOBALEVENTID']` on a frame without that column
raises `KeyError`. -/
def data_quality_checks (df : DataFrame) : PyResult Bool × DataFrame :=
  if df.cols.length ≠ 11 then (.ok false, df)
  else
    match df.cols.findIdx? (fun c => c = "GLOBALEVENTID") with
    | none => (.exn "KeyError", df)
    | some i =>
      let df2 :=
        if df.rows.any (fun r => (keyCell i r).isNone) then
          ⟨df.cols, df.rows.filter (fun r => (keyCell i r).isSome)⟩
        else df
      if hasDup (df2.rows.map (keyCell i)) then (.ok false, df2)
      else (.ok true, df2)

/-- Observable effects of one `process_data` run: the S3 uploads attempted
(key and table), the tables handed to `push_to_postgis`, and whether an
exception escaped `process_data` (crashing the host process). -/
structure RunTrace where
  uploads : List (String × DataFrame)
  loads : List DataFrame
  crash : Option String
deriving Repr, DecidableEq

/-- `process_data` (lines 234-266).  `download` models `download_file`
(returns `none` on a failed request), `ex` models
`extract_content_from_zip` (returns `none` on extraction error), `geo`
models `geospatial_processing` (its internal `except` turns any geo error
into `None`), and `loadOk` tells whether the PostGIS append succeeds —
`push_to_postgis` catches its own exceptions and only logs them, so the
append's outcome changes nothing observable.  `upload_to_s3` likewise
catches internally, so an upload is recorded as attempted.  The quality
gate's `KeyError` and `transform_data`'s `UnboundLocalError` are not caught
anywhere and crash the run. -/
def process_data (M : Mappings) (download : String → Option String)
    (ex : String → Option String) (geo : DataFrame → Option DataFrame)
    (loadOk : Bool) (url : String) : RunTrace :=
  match download url with
  | none => ⟨[], [], none⟩
  | some z =>
    if z = "" then ⟨[], [], none⟩
    else
      match ex z with
      | none => ⟨[], [], none⟩
      | some c =>
        if c = "" then ⟨[], [], none⟩
        else
          match transform_data M none c with
          | .exn e => ⟨[], [], some e⟩
          | .ok df =>
            match data_quality_checks df with
            | (.exn e, _) => ⟨[], [], some e⟩
            | (.ok false, df2) => ⟨[("data_quality_issues.csv", df2)], [], none⟩
            | (.ok true, df2) =>
              match geo df2 with
              | none => ⟨[], [], none⟩
              | some g => ⟨[], [g], none⟩

/-- The interpreter's completion status for a run: 0 on normal termination
(all failures only logged), non-zero only when an exception escaped. -/
def exit_status (t : RunTrace) : Nat := if t.crash = none then 0 else 1

/-- `"export" in line` (line 96): substring containment. -/
def containsExport (l : String) : Bool := hasSub "export".data l.data

/-- Lines 92-96: the feed listing is split at newlines and the URL is
`line.split(' ')[-1]` — the last field after splitting at single space
characters — of the first line containing `"export"`. -/
def export_data_url (text : String) : Option String :=
  ((pySplit '\n' text).find? containsExport).map
    (fun l => (pySplit ' ' l).getLastD "")

/-- The spec's reading, for comparison with `export_data_url`: the last
whitespace-delimited field of a line, fields being the maximal runs of
non-whitespace characters (Python's `line.split()[-1]`). -/
def lastWhitespaceField (l : String) : String :=
  (((splitBy (fun ch => ch.isWhitespace) l.data).map String.mk).filter
    (fun s => s ≠ "")).getLastD ""

/-- Lines 269-272: `process_data` runs only when a truthy export URL was
found (`None` and the empty string are falsy); otherwise only an error is
logged.  `listing = none` models a failed fetch of the feed listing. -/
def run_job (M : Mappings) (download : String → Option String)
    (ex : String → Option String) (geo : DataFrame → Option DataFrame)
    (loadOk : Bool) (listing : Option String) : RunTrace :=
  match listing with
  | none => ⟨[], [], none⟩
  | some text =>
    match export_data_url text with
    | none => ⟨[], [], none⟩
    | some u => if u = "" then ⟨[], [], none⟩ else process_data M download ex geo loadOk u

/-! Concrete instances used by the claim witnesses and counterexamples. -/

/-- Lookup tables with empty content. -/
def M0 : Mappings := ⟨fun _ => none, fun _ => none, fun _ => none, fun _ => none⟩

/-- Lookup tables mapping the event code "1" to a label. -/
def M1 : Mappings :=
  ⟨fun v => if v = "1" then some "CoopLabel" else none,
   fun _ => none, fun _ => none, fun _ => none⟩

/-- A well-formed one-row payload with 61 tab-separated fields. -/
def c0 : String := String.intercalate "\t" (List.replicate 61 "1")

/-- A payload pandas cannot parse: its second line has more fields than its
first. -/
def bad_payload : String := "a\nb\tc"

/-- The frame `transform_data M0 none c0` produces. -/
def T0 : DataFrame :=
  ⟨new_columns,
   [[some "1", some "1", some "Unknown", some "Unknown", some "Unknown",
     some "1", some "Unknown", some "1", some "1", some "1", some "1"]]⟩

/-- The frame returned when the second enrichment statement raises on `c0`
under `M1`: only `EventCode` has been mapped. -/
def T_half : DataFrame :=
  ⟨new_columns,
   [[some "1", some "1", some "CoopLabel", some "1", some "1",
     some "1", some "1", some "1", some "1", some "1", some "1"]]⟩

/-- The fully enriched frame for `c0` under `M1`. -/
def T_full1 : DataFrame :=
  ⟨new_columns,
   [[some "1", some "1", some "CoopLabel", some "Unknown", some "Unknown",
     some "1", some "Unknown", some "1", some "1", some "1", some "1"]]⟩

/-! Behaviour of the quality gate. -/

/-- Given eleven columns among which `GLOBALEVENTID` sits at position `i`,
the gate's result is: the table with the null-key rows filtered out,
passing exactly when the surviving keys are free of duplicates.  (When no
key is null the code skips the `dropna`, but the filter is then the
identity.) -/
lemma dqc_eq (df : DataFrame) (i : Nat)
    (h11 : df.cols.length = 11)
    (hidx : df.cols.findIdx? (fun c => c = "GLOBALEVENTID") = some i) :
    data_quality_checks df =
      ((if hasDup ((df.rows.filter (fun r => (keyCell i r).isSome)).map
          (keyCell i)) then .ok false else .ok true),
        ⟨df.cols, df.rows.filter (fun r => (keyCell i r).isSome)⟩) := by
  unfold data_quality_checks
  rw [if_neg (by omega), hidx]
  dsimp only
  by_cases hany : df.rows.any (fun r => (keyCell i r).isNone) = true
  · rw [if_pos hany]
    split <;> rfl
  · have hany2 : df.rows.any (fun r => (keyCell i r).isNone) = false := by
      simpa using hany
    have hfil : df.rows.filter (fun r => (keyCell i r).isSome) = df.rows := by
      apply List.filter_eq_self.mpr
      intro r hr
      have := List.any_eq_false.mp hany2 r hr
      cases h : keyCell i r <;> simp_all
    rw [if_neg hany, hfil]
    split <;> rfl

/-! Claims about the quality gate. -/

/-- C7: on an eleven-column table with at least one null `GLOBALEVENTID`,
the gate's output table (the caller's table after the in-place `dropna`) is
exactly the input with the null-key rows removed — strictly fewer rows, no
surviving null key — and when the surviving keys are duplicate-free the
gate still returns `True`, so a null key alone never fails the gate. -/
theorem claim_C7 (df : DataFrame) (i : Nat)
    (h11 : df.cols.length = 11)
    (hidx : df.cols.findIdx? (fun c => c = "GLOBALEVENTID") = some i)
    (hnull : ∃ r ∈ df.rows, keyCell i r = none) :
    (data_quality_checks df).2.rows =
      df.rows.filter (fun r => (keyCell i r).isSome) ∧
    (data_quality_checks df).2.rows.length < df.rows.length ∧
    (∀ r ∈ (data_quality_checks df).2.rows, keyCell i r ≠ none) ∧
    (((df.rows.filter (fun r => (keyCell i r).isSome)).map (keyCell i)).Nodup →
      (data_quality_checks df).1 = .ok true) := by
  rw [dqc_eq df i h11 hidx]
  refine ⟨rfl, ?_, ?_, ?_⟩
  · apply List.length_filter_lt_length_iff_exists.mpr
    obtain ⟨r, hr, hn⟩ := hnull
    exact ⟨r, hr, by simp [hn]⟩
  · intro r hr
    have := (List.mem_filter.mp hr).2
    cases h : keyCell i r <;> simp_all
  · intro hnd
    have hd : hasDup ((df.rows.filter (fun r => (keyCell i r).isSome)).map
        (keyCell i)) = false := by
      simp [hasDup, hnd]
    simp [hd]

/-- C8: on an eleven-column table whose surviving (non-null-key) rows carry
a repeated `GLOBALEVENTID`, the gate returns `False` and its output table
still holds all the surviving rows — the duplicates are reported, not
removed. -/
theorem claim_C8 (df : DataFrame) (i : Nat)
    (h11 : df.cols.length = 11)
    (hidx : df.cols.findIdx? (fun c => c = "GLOBALEVENTID") = some i)
    (hdup : ¬ ((df.rows.filter (fun r => (keyCell i r).isSome)).map
      (keyCell i)).Nodup) :
    (data_quality_checks df).1 = .ok false ∧
    (data_quality_checks df).2.rows =
      df.rows.filter (fun r => (keyCell i r).isSome) := by
  rw [dqc_eq df i h11 hidx]
  have hd : hasDup ((df.rows.filter (fun r => (keyCell i r).isSome)).map
      (keyCell i)) = true := by
    simp [hasDup, hdup]
  simp [hd]

/-- C10: whatever table the gate receives and whatever boolean it returns,
its only effect on the table is the removal of the null-`GLOBALEVENTID`
rows: the column list is untouched and the resulting rows are either the
input rows themselves or the input rows filtered to those with a non-null
key — every surviving row is one of the caller's rows, unchanged. -/
theorem claim_C10 (df : DataFrame) :
    (data_quality_checks df).2.cols = df.cols ∧
    ((data_quality_checks df).2.rows = df.rows ∨
      ∃ i, df.cols.findIdx? (fun c => c = "GLOBALEVENTID") = some i ∧
        (data_quality_checks df).2.rows =
          df.rows.filter (fun r => (keyCell i r).isSome)) := by
  by_cases h11 : df.cols.length = 11
  · cases hf : df.cols.findIdx? (fun c => c = "GLOBALEVENTID") with
    | none =>
      unfold data_quality_checks
      rw [if_neg (by omega), hf]
      exact ⟨rfl, Or.inl rfl⟩
    | some i =>
      rw [dqc_eq df i h11 hf]
      exact ⟨rfl, Or.inr ⟨i, rfl, rfl⟩⟩
  · unfold data_quality_checks
    rw [if_pos (by omega)]
    exact ⟨rfl, Or.inl rfl⟩

/-! Claims about the transform stage's exception handling. -/

set_option maxRecDepth 100000 in
/-- C1: the design demands that when column selection succeeds but an
enrichment statement raises, `transform_data` returns an explicit failure
carrying the error and never a half-enriched table.  The code instead
returns the current (partially mapped) frame from its `except` clause: with
the second enrichment statement raising, the result is `.ok T_half`, a
non-failure value whose `EventCode` column is already mapped while the
remaining three categorical columns still hold raw values. -/
theorem claim_C1 :
    transform_data M1 (some 1) c0 = .ok T_half ∧
    transform_data M1 none c0 = .ok T_full1 ∧
    T_half ≠ T_full1 ∧
    ∀ e, (PyResult.ok T_half : PyResult DataFrame) ≠ .exn e := by
  refine ⟨rfl, rfl, by decide, fun e h => PyResult.noConfusion h⟩

set_option maxRecDepth 100000 in
/-- C3: the design demands a non-zero completion status whenever a stage
fails.  The code swallows every such failure into logs: a failed fetch ends
the run with an empty trace and completion status 0, and a failed PostGIS
append (`loadOk = false`) is observationally identical to a successful
one. -/
theorem claim_C3 :
    process_data M0 (fun _ => none) (fun _ => none) (fun _ => none) true "u" =
      ⟨[], [], none⟩ ∧
    exit_status (process_data M0 (fun _ => none) (fun _ => none)
      (fun _ => none) true "u") = 0 ∧
    exit_status (process_data M0 (fun _ => some "Z") (fun _ => some c0)
      (fun _ => none) true "u") = 0 ∧
    process_data M0 (fun _ => some "Z") (fun _ => some c0)
        (fun _ => some T0) false "u" =
      process_data M0 (fun _ => some "Z") (fun _ => some c0)
        (fun _ => some T0) true "u" := by
  exact ⟨rfl, rfl, rfl, rfl⟩

/-- C4: the design demands that an unparseable payload yield a definite
`MalformedPayload` failure and a controlled abort.  On `bad_payload` the
`except` clause of `transform_data` executes `return df` with `df` unbound,
so an `UnboundLocalError` is raised instead and propagates uncaught through
`process_data`, crashing the host process (completion status 1, but
uncontrolled). -/
theorem claim_C4 :
    transform_data M0 none bad_payload = .exn "UnboundLocalError" ∧
    process_data M0 (fun _ => some "Z") (fun _ => some bad_payload)
        (fun _ => none) true "u" = ⟨[], [], some "UnboundLocalError"⟩ ∧
    exit_status (process_data M0 (fun _ => some "Z")
      (fun _ => some bad_payload) (fun _ => none) true "u") = 1 := by
  exact ⟨rfl, rfl, rfl⟩

/-! Claims about the export-URL selection. -/

/-- C9 counterexample: on the listing whose single line is
`"export\thttp://a.zip"`, the last whitespace-delimited field is
`"http://a.zip"`, but the code splits at single space characters only and
chooses the whole line as the URL, so the claim's description of the chosen
URL is false. -/
theorem claim_C9_counterexample :
    containsExport "export\thttp://a.zip" = true ∧
    lastWhitespaceField "export\thttp://a.zip" = "http://a.zip" ∧
    export_data_url "export\thttp://a.zip" = some "export\thttp://a.zip" ∧
    ("export\thttp://a.zip" : String) ≠ "http://a.zip" := by
  refine ⟨rfl, rfl, rfl, by decide⟩

/-- C9 as amended: the chosen archive URL is the last field of the first
line containing `"export"` after splitting that line at single space
characters; and when no line contains `"export"`, no URL is produced and
the pipeline is never started (`run_job` performs no uploads, no loads, and
terminates normally at once). -/
theorem claim_C9 (text : String) :
    ((∀ l ∈ pySplit '\n' text, containsExport l = false) →
      export_data_url text = none ∧
      ∀ (M : Mappings) dl ex geo lo,
        run_job M dl ex geo lo (some text) = ⟨[], [], none⟩) ∧
    (∀ l, (pySplit '\n' text).find? containsExport = some l →
      export_data_url text = some ((pySplit ' ' l).getLastD "")) := by
  constructor
  · intro h
    have hf : (pySplit '\n' text).find? containsExport = none := by
      rw [List.find?_eq_none]
      intro x hx
      simp [h x hx]
    exact ⟨by simp [export_data_url, hf], fun M dl ex geo lo => by
      simp [run_job, export_data_url, hf]⟩
  · intro l hl
    simp [export_data_url, hl]

/-- C9 witness: the amended theorem applied to a concrete listing with no
matching line. -/
theorem claim_C9_witness :
    (∀ l ∈ pySplit '\n' "news feed\nno matching line",
      containsExport l = false) ∧
    (export_data_url "news feed\nno matching line" = none ∧
      ∀ (M : Mappings) dl ex geo lo,
        run_job M dl ex geo lo (some "news feed\nno matching line") =
          ⟨[], [], none⟩) := by
  have h : ∀ l ∈ pySplit '\n' "news feed\nno matching line",
      containsExport l = false := by decide
  exact ⟨h, (claim_C9 "news feed\nno matching line").1 h⟩

/-! Claims about the schema projection and the enrichment. -/

/-- C5: on every payload that parses with at least 61 positional columns,
the projection of lines 130-135 selects exactly the positions
0, 1, 26, 27, 28, 52, 53, 56, 57, 59, 60 of every row, in that order,
renames them to the eleven specified column names in the specified order,
and keeps every row in its original position — no row is reordered,
dropped, or added. -/
theorem claim_C5 (content : String) (df0 : DataFrame)
    (hparse : read_csv content = .ok df0)
    (hwide : 61 ≤ df0.cols.length) :
    iloc_cols df0 sel_positions =
      .ok ⟨sel_positions.map (fun i => df0.cols.getD i ""),
           df0.rows.map (fun r =>
             [0, 1, 26, 27, 28, 52, 53, 56, 57, 59, 60].map
               (fun i => r.getD i none))⟩ ∧
    set_columns ⟨sel_positions.map (fun i => df0.cols.getD i ""),
        df0.rows.map (fun r =>
          [0, 1, 26, 27, 28, 52, 53, 56, 57, 59, 60].map
            (fun i => r.getD i none))⟩ =
      .ok ⟨["GLOBALEVENTID", "SQLDATE", "EventCode", "EventBaseCode",
            "EventRootCode", "ActionGeo_FullName", "ActionGeo_CountryCode",
            "ActionGeo_Lat", "ActionGeo_Long", "DATEADDED", "SOURCEURL"],
           df0.rows.map (fun r =>
             [0, 1, 26, 27, 28, 52, 53, 56, 57, 59, 60].map
               (fun i => r.getD i none))⟩ ∧
    (df0.rows.map (fun r =>
      [0, 1, 26, 27, 28, 52, 53, 56, 57, 59, 60].map
        (fun i => r.getD i none))).length = df0.rows.length := by
  have hall : (sel_positions.all fun i => decide (i < df0.cols.length)) = true := by
    rw [List.all_eq_true]
    intro i hi
    simp only [sel_positions, List.mem_cons, List.not_mem_nil, or_false] at hi
    rcases hi with rfl | rfl | rfl | rfl | rfl | rfl | rfl | rfl | rfl | rfl | rfl <;>
      simp <;> omega
  refine ⟨?_, ?_, by simp⟩
  · unfold iloc_cols
    rw [if_pos hall]
    rfl
  · unfold set_columns
    rw [if_pos (by simp [sel_positions, new_columns])]
    rfl

lemma length_applyAt (i : Nat) (m : String → Option String) (r : List Cell) :
    (applyAt i m r).length = r.length := by
  simp [applyAt]

lemma getD_applyAt_self (i : Nat) (m : String → Option String) (r : List Cell)
    (h : i < r.length) :
    (applyAt i m r).getD i none = map_fillna m (r.getD i none) := by
  have h2 : i < (applyAt i m r).length := by simpa [length_applyAt] using h
  rw [List.getD_eq_getElem _ _ h2]
  simp [applyAt]

lemma getD_applyAt_ne (i j : Nat) (m : String → Option String) (r : List Cell)
    (hne : i ≠ j) :
    (applyAt i m r).getD j none = r.getD j none := by
  rcases Nat.lt_or_ge j r.length with h | h
  · have h2 : j < (applyAt i m r).length := by simpa [length_applyAt] using h
    rw [List.getD_eq_getElem _ _ h2, List.getD_eq_getElem _ _ h]
    simp [applyAt, List.getElem_set_ne hne]
  · rw [List.getD_eq_default _ _ (by simpa [length_applyAt] using h),
        List.getD_eq_default _ _ h]

/-- With the eleven standard column names in place, the four enrichment
statements find their columns at positions 2, 3, 4 and 6 and rewrite every
row there, in source order. -/
lemma enrich_rows_eq (M : Mappings) (rows : List (List Cell)) :
    enrichList none 0 (enrichSteps M) ⟨new_columns, rows⟩ =
      .ok ⟨new_columns,
        (((rows.map (applyAt 2 M.event_codes_map)).map
            (applyAt 3 M.event_base_codes_map)).map
            (applyAt 4 M.event_root_codes_map)).map
            (applyAt 6 M.map_fips_to_iso2_map)⟩ := by
  rfl

/-- The cell left at position `j` of a row after the four enrichment
rewrites. -/
lemma enriched_cell (m1 m2 m3 m4 : String → Option String) (r : List Cell)
    (j : Nat) (hj : j < r.length) :
    (applyAt 6 m4 (applyAt 4 m3 (applyAt 3 m2 (applyAt 2 m1 r)))).getD j none =
      if j = 6 then map_fillna m4 (r.getD j none)
      else if j = 4 then map_fillna m3 (r.getD j none)
      else if j = 3 then map_fillna m2 (r.getD j none)
      else if j = 2 then map_fillna m1 (r.getD j none)
      else r.getD j none := by
  by_cases h6 : j = 6
  · subst h6
    rw [getD_applyAt_self _ _ _ (by simp [length_applyAt]; omega),
        getD_applyAt_ne _ _ _ _ (by omega), getD_applyAt_ne _ _ _ _ (by omega),
        getD_applyAt_ne _ _ _ _ (by omega)]
    simp
  · rw [getD_applyAt_ne _ _ _ _ (by omega)]
    by_cases h4 : j = 4
    · subst h4
      rw [getD_applyAt_self _ _ _ (by simp [length_applyAt]; omega),
          getD_applyAt_ne _ _ _ _ (by omega), getD_applyAt_ne _ _ _ _ (by omega)]
      simp
    · rw [getD_applyAt_ne _ _ _ _ (by omega)]
      by_cases h3 : j = 3
      · subst h3
        rw [getD_applyAt_self _ _ _ (by simp [length_applyAt]; omega),
            getD_applyAt_ne _ _ _ _ (by omega)]
        simp
      · rw [getD_applyAt_ne _ _ _ _ (by omega)]
        by_cases h2 : j = 2
        · subst h2
          rw [getD_applyAt_self _ _ _ hj]
          simp
        · rw [getD_applyAt_ne _ _ _ _ (by omega)]
          simp [h6, h4, h3, h2]

/-- C6: on a projected table (eleven standard column names, rows of eleven
cells), the enrichment of lines 138-141 succeeds, keeps every row (output
row count equals input row count), and rewrites exactly the four
categorical columns through their lookup tables: a raw value present in
the lookup becomes its mapped label, and an unmapped or null raw value
becomes the literal string "Unknown". -/
theorem claim_C6 (M : Mappings) (rows : List (List Cell))
    (hlen : ∀ r ∈ rows, r.length = 11) :
    ∃ out, enrichList none 0 (enrichSteps M) ⟨new_columns, rows⟩ = .ok out ∧
      out.rows.length = rows.length ∧
      ∀ p ∈ [(2, M.event_codes_map), (3, M.event_base_codes_map),
             (4, M.event_root_codes_map), (6, M.map_fips_to_iso2_map)],
        ∀ k, k < rows.length →
          ((rows.getD k []).getD p.1 none = none →
            (out.rows.getD k []).getD p.1 none = some "Unknown") ∧
          (∀ v, (rows.getD k []).getD p.1 none = some v →
            (∀ label, p.2 v = some label →
              (out.rows.getD k []).getD p.1 none = some label) ∧
            (p.2 v = none →
              (out.rows.getD k []).getD p.1 none = some "Unknown")) := by
  refine ⟨_, enrich_rows_eq M rows, by simp, ?_⟩
  intro p hp k hk
  have hrowlen : (rows.getD k []).length = 11 := by
    rw [List.getD_eq_getElem _ _ hk]
    exact hlen _ (rows.getElem_mem hk)
  have hout : ((((rows.map (applyAt 2 M.event_codes_map)).map
      (applyAt 3 M.event_base_codes_map)).map
      (applyAt 4 M.event_root_codes_map)).map
      (applyAt 6 M.map_fips_to_iso2_map)).getD k [] =
      applyAt 6 M.map_fips_to_iso2_map
        (applyAt 4 M.event_root_codes_map
          (applyAt 3 M.event_base_codes_map
            (applyAt 2 M.event_codes_map (rows.getD k [])))) := by
    rw [List.getD_eq_getElem _ _ (by simpa using hk),
        List.getD_eq_getElem _ _ hk]
    simp
  rw [hout]
  simp only [List.mem_cons, List.not_mem_nil, or_false] at hp
  rcases hp with rfl | rfl | rfl | rfl <;>
    (dsimp only
     rw [enriched_cell _ _ _ _ _ _ (by omega)]
     exact ⟨fun h0 => by rw [h0]; rfl, fun v hv => by
       rw [hv]
       exact ⟨fun label hl => by simp [map_fillna, hl],
              fun hn => by simp [map_fillna, hn]⟩⟩)

/-! Claim about the orchestrator's failure routing. -/

/-- C2: once a run reaches the quality gate, the routing is asymmetric
exactly as designed: a `False` gate routes the (mutated) table to S3 under
the fixed key "data_quality_issues.csv" and never invokes the loader,
while after a `True` gate no S3 upload ever happens — a geo failure ends
the run with no load and no quarantine, and a geo success hands exactly
the joined table to the loader, quarantining nothing. -/
theorem claim_C2 (M : Mappings) (dl ex : String → Option String)
    (geo : DataFrame → Option DataFrame) (lo : Bool) (url z c : String)
    (df : DataFrame)
    (hdl : dl url = some z) (hz : z ≠ "")
    (hex : ex z = some c) (hc : c ≠ "")
    (htr : transform_data M none c = .ok df) :
    (∀ df2, data_quality_checks df = (.ok false, df2) →
      process_data M dl ex geo lo url =
        ⟨[("data_quality_issues.csv", df2)], [], none⟩) ∧
    (∀ df2, data_quality_checks df = (.ok true, df2) →
      (process_data M dl ex geo lo url).uploads = [] ∧
      (geo df2 = none →
        process_data M dl ex geo lo url = ⟨[], [], none⟩) ∧
      (∀ g, geo df2 = some g →
        process_data M dl ex geo lo url = ⟨[], [g], none⟩)) := by
  unfold process_data
  rw [hdl]
  dsimp only
  rw [if_neg hz, hex]
  dsimp only
  rw [if_neg hc, htr]
  dsimp only
  constructor
  · intro df2 hq
    rw [hq]
  · intro df2 hq
    rw [hq]
    dsimp only
    refine ⟨?_, fun hg => by rw [hg], fun g hg => by rw [hg]⟩
    cases geo df2 <;> rfl

/-! Witnesses instantiating the hypothesis-bearing claim theorems. -/

/-- A payload of two identical 61-field rows: its transform carries a
duplicated `GLOBALEVENTID`. -/
def c_dup : String := c0 ++ "\n" ++ c0

/-- The frame `transform_data M0 none c_dup` produces. -/
def T_dup : DataFrame :=
  ⟨new_columns,
   [[some "1", some "1", some "Unknown", some "Unknown", some "Unknown",
     some "1", some "Unknown", some "1", some "1", some "1", some "1"],
    [some "1", some "1", some "Unknown", some "Unknown", some "Unknown",
     some "1", some "Unknown", some "1", some "1", some "1", some "1"]]⟩

set_option maxRecDepth 1000000 in
/-- C2 witness: a concrete run whose quality gate fails on a duplicate key
is routed, whole and mutated, to the quarantine key, with no load. -/
theorem claim_C2_witness :
    transform_data M0 none c_dup = .ok T_dup ∧
    data_quality_checks T_dup = (.ok false, T_dup) ∧
    process_data M0 (fun _ => some "Z") (fun _ => some c_dup)
        (fun _ => none) true "u" =
      ⟨[("data_quality_issues.csv", T_dup)], [], none⟩ := by
  refine ⟨rfl, rfl, ?_⟩
  exact (claim_C2 M0 (fun _ => some "Z") (fun _ => some c_dup) (fun _ => none)
    true "u" "Z" c_dup T_dup rfl (by decide) rfl (by decide) rfl).1 T_dup rfl

/-- The frame `read_csv c0` produces. -/
def P0 : DataFrame :=
  ⟨(List.range 61).map toString, [List.replicate 61 (some "1")]⟩

set_option maxRecDepth 1000000 in
/-- C5 witness: the projection theorem applied to the concrete 61-field
payload `c0`. -/
theorem claim_C5_witness :
    read_csv c0 = .ok P0 ∧ 61 ≤ P0.cols.length ∧
    iloc_cols P0 sel_positions =
      .ok ⟨sel_positions.map (fun i => P0.cols.getD i ""),
           P0.rows.map (fun r =>
             [0, 1, 26, 27, 28, 52, 53, 56, 57, 59, 60].map
               (fun i => r.getD i none))⟩ := by
  refine ⟨rfl, by simp [P0], ?_⟩
  exact (claim_C5 c0 P0 rfl (by simp [P0])).1

/-- A projected row of eleven identical cells. -/
def R11 : List Cell := List.replicate 11 (some "1")

/-- C6 witness: the enrichment theorem applied to a concrete one-row
projected table. -/
theorem claim_C6_witness :
    (∀ r ∈ [R11], r.length = 11) ∧
    ∃ out, enrichList none 0 (enrichSteps M0) ⟨new_columns, [R11]⟩ = .ok out ∧
      out.rows.length = 1 := by
  have h : ∀ r ∈ [R11], r.length = 11 := by decide
  obtain ⟨out, h1, h2, _⟩ := claim_C6 M0 [R11] h
  exact ⟨h, out, h1, by simpa using h2⟩

/-- An eleven-column table with one null key and two distinct keys. -/
def W7 : DataFrame :=
  ⟨new_columns,
   [none :: List.replicate 10 (some "x"),
    some "5" :: List.replicate 10 (some "x"),
    some "7" :: List.replicate 10 (some "x")]⟩

/-- C7 witness: the gate theorem applied to `W7`. -/
theorem claim_C7_witness :
    W7.cols.length = 11 ∧
    W7.cols.findIdx? (fun c => c = "GLOBALEVENTID") = some 0 ∧
    (∃ r ∈ W7.rows, keyCell 0 r = none) ∧
    ((data_quality_checks W7).2.rows =
        W7.rows.filter (fun r => (keyCell 0 r).isSome) ∧
      (data_quality_checks W7).2.rows.length < W7.rows.length ∧
      (∀ r ∈ (data_quality_checks W7).2.rows, keyCell 0 r ≠ none) ∧
      (((W7.rows.filter (fun r => (keyCell 0 r).isSome)).map
          (keyCell 0)).Nodup →
        (data_quality_checks W7).1 = .ok true)) :=
  ⟨by decide, by decide, by decide,
   claim_C7 W7 0 (by decide) (by decide) (by decide)⟩

/-- An eleven-column table with a duplicated key among its surviving
rows. -/
def W8 : DataFrame :=
  ⟨new_columns,
   [some "5" :: List.replicate 10 (some "x"),
    some "5" :: List.replicate 10 (some "x"),
    none :: List.replicate 10 (some "x")]⟩

/-- C8 witness: the gate theorem applied to `W8`. -/
theorem claim_C8_witness :
    (¬ ((W8.rows.filter (fun r => (keyCell 0 r).isSome)).map
      (keyCell 0)).Nodup) ∧
    ((data_quality_checks W8).1 = .ok false ∧
      (data_quality_checks W8).2.rows =
        W8.rows.filter (fun r => (keyCell 0 r).isSome)) :=
  ⟨by decide, claim_C8 W8 0 (by decide) (by decide) (by decide)⟩

/-- C10 witness: the frame theorem applied to the concrete table `W7`. -/
theorem claim_C10_witness :
    (data_quality_checks W7).2.cols = W7.cols ∧
    ((data_quality_checks W7).2.rows = W7.rows ∨
      ∃ i, W7.cols.findIdx? (fun c => c = "GLOBALEVENTID") = some i ∧
        (data_quality_checks W7).2.rows =
          W7.rows.filter (fun r => (keyCell i r).isSome)) :=
  claim_C10 W7

end Etl
